import Mathlib

/-!
Shallow embedding of the Gemini Vertex AI adapter (`gemini_app.py`) and the
dashboard's temporary-file handling (`streamlit_app.py`).

The remote generative service is opaque: it is modelled as an oracle function
supplied by the caller, returning either generated text (`Except.ok`) or a
raised exception whose stringified form is carried in `Except.error`.  The
local filesystem is modelled as a partial map from paths to byte lists.
-/

namespace GeminiApp

/-- One element of a multi-part payload: either plain text or binary image
data tagged with a MIME type (`vertexai` `Part`). -/
inductive Part where
  | text (s : String)
  | data (bytes : List Nat) (mime : String)
deriving DecidableEq, Repr

/-- A chat turn in the remote service's representation (`vertexai` `Content`):
a role string plus a list of parts. -/
structure Content where
  role : String
  parts : List Part
deriving DecidableEq, Repr

/-- A caller-level chat message: a dict with `role` and `content` keys. -/
structure Message where
  role : String
  content : String
deriving DecidableEq, Repr

/-- The keyword arguments accepted by the generation methods; `none` means
the keyword was not supplied and `kwargs.get` falls back to the default. -/
structure Kwargs where
  temperature : Option ℚ
  top_p : Option ℚ
  top_k : Option ℕ
  max_output_tokens : Option ℕ
deriving DecidableEq, Repr

/-- The generation-configuration dict built by `generate_text` and
`generate_with_images`: exactly four fields. -/
structure GenerationConfig where
  temperature : ℚ
  top_p : ℚ
  top_k : ℕ
  max_output_tokens : ℕ
deriving DecidableEq, Repr

/-- `generation_config = \x7b "temperature": kwargs.get("temperature", 0.7), ... \x7d` -/
def generation_config_of (kwargs : Kwargs) : GenerationConfig :=
  { temperature := kwargs.temperature.getD 0.7
    top_p := kwargs.top_p.getD 0.95
    top_k := kwargs.top_k.getD 40
    max_output_tokens := kwargs.max_output_tokens.getD 2048 }

/-- A single request to the remote `generate_content` endpoint: the model the
handle was built from, the ordered content parts, and the configuration. -/
structure Request where
  model : String
  parts : List Part
  generation_config : GenerationConfig
deriving DecidableEq, Repr

/-- The remote `generate_content` boundary: returns extracted text or raises
(the `Except.error` carries `str(e)`). -/
def Remote : Type := Request → Except String String

/-- The remote chat boundary (`start_chat(history=...)` followed by one
`send_message`): model, seeded history, new message text. -/
def ChatRemote : Type := String → List Content → String → Except String String

/-- The local filesystem: a path either holds file bytes or does not exist. -/
def FS : Type := String → Option (List Nat)

/-- The adapter state held on `self` by class `GeminiVertexAI`. -/
structure GeminiVertexAI where
  project_id : String
  location : String
  models : List (String × String)
  model : String
deriving DecidableEq, Repr

/-- The `self.models` dict of available Gemini 2.0 models. -/
def available_models : List (String × String) :=
  [("gemini-2.0-flash-exp", "gemini-2.0-flash-exp"),
   ("gemini-2.0-flash-thinking-exp", "gemini-2.0-flash-thinking-exp")]

/-- `__init__`: store project and location, install the fixed model table and
default the active model to `gemini-2.0-flash-exp`. -/
def GeminiVertexAI.mkClient (project_id : String) (location : String) : GeminiVertexAI :=
  { project_id := project_id
    location := location
    models := available_models
    model := "gemini-2.0-flash-exp" }

/-- `set_model`: reject a name missing from `self.models` with a `ValueError`,
otherwise replace the active model handle. -/
def set_model (self : GeminiVertexAI) (model_name : String) : Except String GeminiVertexAI :=
  match self.models.lookup model_name with
  | none =>
      .error ("Model " ++ model_name ++ " not supported. Available models: " ++
        String.intercalate ", " (self.models.map (fun kv => kv.1)))
  | some handle => .ok { self with model := handle }

/-- Python's `os.path.splitext`: last index of a character in a list. -/
def rfindIdx (c : Char) (cs : List Char) : Option Nat :=
  ((cs.enum.filter (fun p => p.2 == c)).getLast?).map (fun p => p.1)

/-- `os.path.splitext(p)`: split off the extension beginning at the last dot
of the basename, provided some earlier basename character is not a dot
(leading dots never start an extension). -/
def splitext (p : String) : String × String :=
  let cs := p.data
  let sepIndex : Int := (rfindIdx '/' cs).elim (-1) (fun n => (n : Int))
  let dotIndex : Int := (rfindIdx '.' cs).elim (-1) (fun n => (n : Int))
  if sepIndex < dotIndex then
    let start := (sepIndex + 1).toNat
    let d := dotIndex.toNat
    if (List.range' start (d - start)).any (fun i => cs.getD i '.' != '.') then
      (⟨cs.take d⟩, ⟨cs.drop d⟩)
    else (p, "")
  else (p, "")

/-- Python's `str.lower()` on the extracted extension (character-wise case
mapping; ASCII is all the fixed table needs). -/
def str_lower (s : String) : String := ⟨s.data.map Char.toLower⟩

/-- The fixed extension table inside `_get_mime_type`. -/
def mime_types : List (String × String) :=
  [(".jpg", "image/jpeg"), (".jpeg", "image/jpeg"), (".png", "image/png"),
   (".gif", "image/gif"), (".bmp", "image/bmp"), (".webp", "image/webp")]

/-- `_get_mime_type`: look up the lower-cased extension, defaulting to
`image/jpeg`. -/
def get_mime_type (file_path : String) : String :=
  let extension := str_lower (splitext file_path).2
  (mime_types.lookup extension).getD "image/jpeg"

/-- `generate_text`: build the configuration, call the remote service once
with the prompt, return its text; any raised exception is converted to an
error string. -/
def generate_text (self : GeminiVertexAI) (remote : Remote) (prompt : String)
    (kwargs : Kwargs) : String :=
  let generation_config := generation_config_of kwargs
  match remote { model := self.model, parts := [Part.text prompt],
                 generation_config := generation_config } with
  | .ok response => response
  | .error e => "Error generating text: " ++ e

/-- The body of the `for image_path in image_paths` loop in
`generate_with_images`: append a data part when the file exists, otherwise
record the warning that is printed. -/
def image_loop_body (fs : FS) (acc : List Part × List String) (image_path : String) :
    List Part × List String :=
  match fs image_path with
  | some image_data =>
      (acc.1 ++ [Part.data image_data (get_mime_type image_path)], acc.2)
  | none =>
      (acc.1, acc.2 ++ ["Warning: Image file " ++ image_path ++ " not found"])

/-- `content_parts` construction: the prompt followed by a part for each
image file that exists, in input order; the second component collects the
warnings printed for missing files. -/
def build_content_parts (fs : FS) (prompt : String) (image_paths : List String) :
    List Part × List String :=
  image_paths.foldl (image_loop_body fs) ([Part.text prompt], [])

/-- `generate_with_images`: assemble the multi-part payload, call the remote
service once, convert any raised exception to an error string. -/
def generate_with_images (self : GeminiVertexAI) (fs : FS) (remote : Remote)
    (prompt : String) (image_paths : List String) (kwargs : Kwargs) : String :=
  let content_parts := (build_content_parts fs prompt image_paths).1
  let generation_config := generation_config_of kwargs
  match remote { model := self.model, parts := content_parts,
                 generation_config := generation_config } with
  | .ok response => response
  | .error e => "Error generating text with images: " ++ e

/-- The per-message conversion inside `chat_conversation`:
`role = "user" if message["role"] == "user" else "model"` wrapped with a
single text part. -/
def message_to_content (message : Message) : Content :=
  { role := if message.role = "user" then "user" else "model"
    parts := [Part.text message.content] }

/-- `contents[-1].parts[0].text`: the text of the first part. -/
def first_part_text (c : Content) : String :=
  match c.parts with
  | Part.text t :: _ => t
  | _ => ""

/-- `chat_conversation`: convert the history, seed a chat with all turns but
the last and send the last turn's text.  An empty history makes
`contents[-1]` raise `IndexError("list index out of range")`, which the
handler stringifies like every other exception. -/
def chat_conversation (self : GeminiVertexAI) (remote : ChatRemote)
    (messages : List Message) (_kwargs : Kwargs) : String :=
  let contents := messages.map message_to_content
  match contents.getLast? with
  | none => "Error in chat conversation: " ++ "list index out of range"
  | some last =>
      match remote self.model contents.dropLast (first_part_text last) with
      | .ok response => response
      | .error e => "Error in chat conversation: " ++ e

/-! ### Dashboard temporary-file staging (`streamlit_app.py`, Analyze Images) -/

/-- An image uploaded through the dashboard: a name and its bytes. -/
structure UploadedFile where
  name : String
  data : List Nat
deriving DecidableEq, Repr

/-- Write a file: `open(temp_path, "wb")` followed by `f.write(...)`. -/
def fs_write (fs : FS) (p : String) (d : List Nat) : FS :=
  fun q => if q = p then some d else fs q

/-- `os.remove(temp_path)`. -/
def fs_remove (fs : FS) (p : String) : FS :=
  fun q => if q = p then none else fs q

/-- The staging loop before the `try` block: write each uploaded file to
`temp_{name}` and collect `temp_paths` in order. -/
def stage_uploads (fs : FS) (uploaded_files : List UploadedFile) : FS × List String :=
  uploaded_files.foldl
    (fun acc uploaded_file =>
      let temp_path := "temp_" ++ uploaded_file.name
      (fs_write acc.1 temp_path uploaded_file.data, acc.2 ++ [temp_path]))
    (fs, [])

/-- The `finally` block: `for temp_path in temp_paths: if os.path.exists(temp_path): os.remove(temp_path)`. -/
def cleanup_temps (fs : FS) (temp_paths : List String) : FS :=
  temp_paths.foldl
    (fun acc temp_path => if (acc temp_path).isSome then fs_remove acc temp_path else acc)
    fs

/-- The Analyze Images handler: stage the uploads, run the `try` body (the
`generate_with_images` call plus the result rendering, which may raise), and
run the `finally` cleanup whether the body succeeded or raised.  The pair
returns the body's outcome together with the final filesystem. -/
def analyze_images (fs : FS) (uploaded_files : List UploadedFile)
    (body : FS → Except String String) : Except String String × FS :=
  let staged := stage_uploads fs uploaded_files
  let result := body staged.1
  (result, cleanup_temps staged.1 staged.2)

/-! ### The adapter as a state machine -/

/-- One caller-level operation on the adapter; each generation operation
carries its remote oracle and inputs. -/
inductive Op where
  | set_model_op (model_name : String)
  | generate_text_op (remote : Remote) (prompt : String) (kwargs : Kwargs)
  | generate_with_images_op (fs : FS) (remote : Remote) (prompt : String)
      (image_paths : List String) (kwargs : Kwargs)
  | chat_conversation_op (remote : ChatRemote) (messages : List Message) (kwargs : Kwargs)

/-- Execute one operation: `set_model` may raise (leaving the caller with the
old state); the three generation methods never assign to `self`, so they
return the state they were given. -/
def step (s : GeminiVertexAI) (op : Op) : Except String (String × GeminiVertexAI) :=
  match op with
  | .set_model_op model_name =>
      (set_model s model_name).map (fun s' => ("Model set to: " ++ model_name, s'))
  | .generate_text_op remote prompt kwargs =>
      .ok (generate_text s remote prompt kwargs, s)
  | .generate_with_images_op fs remote prompt image_paths kwargs =>
      .ok (generate_with_images s fs remote prompt image_paths kwargs, s)
  | .chat_conversation_op remote messages kwargs =>
      .ok (chat_conversation s remote messages kwargs, s)

/-- The adapter states reachable from `__init__` by successful operations. -/
inductive Reachable : GeminiVertexAI → Prop where
  | start (project_id location : String) :
      Reachable (GeminiVertexAI.mkClient project_id location)
  | next {s : GeminiVertexAI} {op : Op} {r : String} {s' : GeminiVertexAI} :
      Reachable s → step s op = .ok (r, s') → Reachable s'

/-- Statement-side helper: the `try/except` wrapper shape shared by the three
generation methods, as a function of the remote outcome. -/
def error_wrap (pfx : String) (r : Except String String) : String :=
  match r with
  | .ok response => response
  | .error e => pfx ++ e

/-! ### Helper lemmas -/

lemma lookup_available_models (name v : String)
    (h : available_models.lookup name = some v) :
    v = "gemini-2.0-flash-exp" ∨ v = "gemini-2.0-flash-thinking-exp" := by
  simp only [available_models, List.lookup] at h
  split at h
  · exact Or.inl (Option.some.inj h).symm
  · split at h
    · exact Or.inr (Option.some.inj h).symm
    · cases h

lemma mime_lookup_default (e : String)
    (h : e ∉ ([".jpg", ".jpeg", ".png", ".gif", ".bmp", ".webp"] : List String)) :
    mime_types.lookup e = none := by
  simp only [List.mem_cons, not_or] at h
  simp [mime_types, List.lookup, beq_eq_false_iff_ne.mpr h.1, beq_eq_false_iff_ne.mpr h.2.1,
    beq_eq_false_iff_ne.mpr h.2.2.1, beq_eq_false_iff_ne.mpr h.2.2.2.1,
    beq_eq_false_iff_ne.mpr h.2.2.2.2.1, beq_eq_false_iff_ne.mpr h.2.2.2.2.2.1]

lemma foldl_image_loop (fs : FS) (image_paths : List String) (acc : List Part × List String) :
    image_paths.foldl (image_loop_body fs) acc =
      (acc.1 ++ image_paths.filterMap
         (fun p => (fs p).map (fun d => Part.data d (get_mime_type p))),
       acc.2 ++ (image_paths.filter (fun p => (fs p).isNone)).map
         (fun p => "Warning: Image file " ++ p ++ " not found")) := by
  induction image_paths generalizing acc with
  | nil => simp
  | cons p ps ih =>
    cases h : fs p with
    | none =>
      simp [List.foldl_cons, image_loop_body, h, ih, List.filterMap_cons, List.filter_cons]
    | some d =>
      simp [List.foldl_cons, image_loop_body, h, ih, List.filterMap_cons, List.filter_cons]

lemma cleanup_step_eq (fs : FS) (q : String) (qs : List String) :
    cleanup_temps fs (q :: qs) =
      cleanup_temps (if (fs q).isSome then fs_remove fs q else fs) qs := rfl

lemma cleanup_temps_of_none (temp_paths : List String) (fs : FS) (p : String)
    (h : fs p = none) : cleanup_temps fs temp_paths p = none := by
  induction temp_paths generalizing fs with
  | nil => exact h
  | cons q qs ih =>
    rw [cleanup_step_eq]
    apply ih
    cases hq : fs q with
    | none => simpa [hq] using h
    | some d => simp [hq, fs_remove, h]

lemma cleanup_temps_of_mem (temp_paths : List String) (fs : FS) (p : String)
    (h : p ∈ temp_paths) : cleanup_temps fs temp_paths p = none := by
  induction temp_paths generalizing fs with
  | nil => cases h
  | cons q qs ih =>
    rw [cleanup_step_eq]
    rcases List.mem_cons.mp h with hpq | hmem
    · subst hpq
      apply cleanup_temps_of_none
      cases hfs : fs p with
      | none => simp [hfs]
      | some d => simp [hfs, fs_remove]
    · exact ih _ hmem

lemma contents_getLast (ms : List Message) (m : Message) :
    ((ms ++ [m]).map message_to_content).getLast? = some (message_to_content m) := by
  simp

lemma contents_dropLast (ms : List Message) (m : Message) :
    ((ms ++ [m]).map message_to_content).dropLast = ms.map message_to_content := by
  simp

/-! ### Claim theorems -/

/-- C1: every exception raised inside `generate_text`, `generate_with_images`
or `chat_conversation` is caught, never propagated, and converted to the
fixed per-operation error string followed by the stringified cause. -/
theorem error_wrapping_never_propagates :
    (∀ (s : GeminiVertexAI) (remote : Remote) (prompt : String) (kwargs : Kwargs) (e : String),
        remote { model := s.model, parts := [Part.text prompt],
                 generation_config := generation_config_of kwargs } = .error e →
        generate_text s remote prompt kwargs = "Error generating text: " ++ e)
    ∧ (∀ (s : GeminiVertexAI) (fs : FS) (remote : Remote) (prompt : String)
        (image_paths : List String) (kwargs : Kwargs) (e : String),
        remote { model := s.model, parts := (build_content_parts fs prompt image_paths).1,
                 generation_config := generation_config_of kwargs } = .error e →
        generate_with_images s fs remote prompt image_paths kwargs =
          "Error generating text with images: " ++ e)
    ∧ (∀ (s : GeminiVertexAI) (remote : ChatRemote) (ms : List Message) (m : Message)
        (kwargs : Kwargs) (e : String),
        remote s.model (ms.map message_to_content) m.content = .error e →
        chat_conversation s remote (ms ++ [m]) kwargs =
          "Error in chat conversation: " ++ e) := by
  refine ⟨?_, ?_, ?_⟩
  · intro s remote prompt kwargs e h
    simp [generate_text, h]
  · intro s fs remote prompt image_paths kwargs e h
    simp [generate_with_images, h]
  · intro s remote ms m kwargs e h
    simp [chat_conversation, contents_getLast, contents_dropLast, first_part_text,
      message_to_content, h]

/-- C3: both generation methods build a configuration with exactly the four
fields temperature, top_p, top_k, max_output_tokens, each equal to the
caller's keyword when supplied and to its default (0.7, 0.95, 40, 2048)
otherwise, independently; supplying only temperature=0.3 yields
(0.3, 0.95, 40, 2048). -/
theorem generation_config_defaults_and_overrides :
    (∀ kwargs : Kwargs,
        generation_config_of kwargs =
          { temperature := kwargs.temperature.getD 0.7, top_p := kwargs.top_p.getD 0.95,
            top_k := kwargs.top_k.getD 40,
            max_output_tokens := kwargs.max_output_tokens.getD 2048 })
    ∧ (∀ (s : GeminiVertexAI) (remote : Remote) (prompt : String) (kwargs : Kwargs),
        generate_text s remote prompt kwargs =
          error_wrap "Error generating text: "
            (remote { model := s.model, parts := [Part.text prompt],
                      generation_config := generation_config_of kwargs }))
    ∧ (∀ (s : GeminiVertexAI) (fs : FS) (remote : Remote) (prompt : String)
        (image_paths : List String) (kwargs : Kwargs),
        generate_with_images s fs remote prompt image_paths kwargs =
          error_wrap "Error generating text with images: "
            (remote { model := s.model, parts := (build_content_parts fs prompt image_paths).1,
                      generation_config := generation_config_of kwargs }))
    ∧ generation_config_of ⟨some 0.3, none, none, none⟩ =
        { temperature := 0.3, top_p := 0.95, top_k := 40, max_output_tokens := 2048 } :=
  ⟨fun _ => rfl, fun _ _ _ _ => rfl, fun _ _ _ _ _ _ => rfl, rfl⟩

/-- C5: `generate_with_images` skips every path whose file does not exist,
recording exactly one warning for it, and sends the prompt text followed by
the parts for the successfully read files in the original input order. -/
theorem generate_with_images_skips_missing :
    ∀ (fs : FS) (prompt : String) (image_paths : List String),
      (build_content_parts fs prompt image_paths).1 =
          Part.text prompt :: image_paths.filterMap
            (fun p => (fs p).map (fun d => Part.data d (get_mime_type p)))
      ∧ (build_content_parts fs prompt image_paths).2 =
          (image_paths.filter (fun p => (fs p).isNone)).map
            (fun p => "Warning: Image file " ++ p ++ " not found")
      ∧ (∀ (s : GeminiVertexAI) (remote : Remote) (kwargs : Kwargs),
          generate_with_images s fs remote prompt image_paths kwargs =
            error_wrap "Error generating text with images: "
              (remote { model := s.model,
                        parts := Part.text prompt :: image_paths.filterMap
                          (fun p => (fs p).map (fun d => Part.data d (get_mime_type p))),
                        generation_config := generation_config_of kwargs })) := by
  intro fs prompt image_paths
  have hb := foldl_image_loop fs image_paths ([Part.text prompt], [])
  refine ⟨?_, ?_, ?_⟩
  · rw [build_content_parts, hb]
    simp
  · rw [build_content_parts, hb]
    simp
  · intro s remote kwargs
    rw [generate_with_images, build_content_parts, hb]
    rfl

/-- C9: `generate_text` performs no local validation of the prompt: for every
prompt, the empty string included, it invokes the remote service exactly once
with that prompt. -/
theorem generate_text_no_local_validation :
    ∀ (s : GeminiVertexAI) (remote : Remote) (kwargs : Kwargs),
      (∀ prompt : String,
        generate_text s remote prompt kwargs =
          error_wrap "Error generating text: "
            (remote { model := s.model, parts := [Part.text prompt],
                      generation_config := generation_config_of kwargs }))
      ∧ generate_text s remote "" kwargs =
          error_wrap "Error generating text: "
            (remote { model := s.model, parts := [Part.text ""],
                      generation_config := generation_config_of kwargs }) :=
  fun _ _ _ => ⟨fun _ => rfl, rfl⟩

/-- C10: called with an empty history, `chat_conversation` does not raise:
the out-of-range access to the last element is caught by its own handler and
the call returns the prefixed IndexError text, with the adapter state
unchanged. -/
theorem chat_conversation_empty_history_caught :
    ∀ (s : GeminiVertexAI) (remote : ChatRemote) (kwargs : Kwargs),
      chat_conversation s remote [] kwargs =
          "Error in chat conversation: " ++ "list index out of range"
      ∧ step s (.chat_conversation_op remote [] kwargs) =
          .ok ("Error in chat conversation: " ++ "list index out of range", s) :=
  fun _ _ _ => ⟨rfl, rfl⟩

/-- C2: `set_model` succeeds on every identifier in the supported table,
installing that model so that subsequent generation calls use it; on any
identifier outside the table it fails with an invalid-argument error and
produces no new state, so the previously active model stays active. -/
theorem set_model_supported_and_rejects :
    (∀ (s : GeminiVertexAI) (model_name handle : String),
        s.models.lookup model_name = some handle →
        set_model s model_name = .ok { s with model := handle }
        ∧ (∀ (remote : Remote) (prompt : String) (kwargs : Kwargs),
            generate_text { s with model := handle } remote prompt kwargs =
              error_wrap "Error generating text: "
                (remote { model := handle, parts := [Part.text prompt],
                          generation_config := generation_config_of kwargs })))
    ∧ (∀ (s : GeminiVertexAI) (model_name : String),
        s.models.lookup model_name = none →
        ∃ msg, set_model s model_name = .error msg
          ∧ step s (.set_model_op model_name) = .error msg)
    ∧ available_models.lookup "gemini-2.0-flash-exp" = some "gemini-2.0-flash-exp"
    ∧ available_models.lookup "gemini-2.0-flash-thinking-exp" =
        some "gemini-2.0-flash-thinking-exp" := by
  refine ⟨?_, ?_, rfl, rfl⟩
  · intro s model_name handle h
    exact ⟨by simp [set_model, h], fun _ _ _ => rfl⟩
  · intro s model_name h
    refine ⟨"Model " ++ model_name ++ " not supported. Available models: " ++
      String.intercalate ", " (s.models.map (fun kv => kv.1)), ?_, ?_⟩
    · simp [set_model, h]
    · simp [step, set_model, h, Except.map]

/-- C4: for a non-empty history ending in a user message,
`chat_conversation` converts role `user` to "user" and every other role to
"model", seeds the remote session with all converted turns but the last in
order, and sends exactly the last turn's text; a length-1 history seeds an
empty history and sends one message. -/
theorem chat_conversation_history_split :
    ∀ (s : GeminiVertexAI) (remote : ChatRemote) (ms : List Message) (m : Message)
      (kwargs : Kwargs), m.role = "user" →
      chat_conversation s remote (ms ++ [m]) kwargs =
          error_wrap "Error in chat conversation: "
            (remote s.model (ms.map message_to_content) m.content)
      ∧ ((ms ++ [m]).map message_to_content).map Content.role =
          (ms ++ [m]).map (fun msg => if msg.role = "user" then "user" else "model")
      ∧ (ms = [] → chat_conversation s remote [m] kwargs =
          error_wrap "Error in chat conversation: " (remote s.model [] m.content)) := by
  intro s remote ms m kwargs _hrole
  have key : ∀ ms' : List Message, chat_conversation s remote (ms' ++ [m]) kwargs =
      error_wrap "Error in chat conversation: "
        (remote s.model (ms'.map message_to_content) m.content) := by
    intro ms'
    simp [chat_conversation, contents_getLast, contents_dropLast, error_wrap,
      first_part_text, message_to_content]
  refine ⟨key ms, ?_, fun h => by simpa using key []⟩
  rw [List.map_map]
  rfl

/-- C6: every temporary file staged for an uploaded image by the dashboard's
Analyze Images handler is absent from the filesystem after the handler
returns, whether the guarded body succeeded or raised. -/
theorem temp_files_removed_after_analysis :
    ∀ (fs : FS) (uploaded_files : List UploadedFile) (body : FS → Except String String)
      (p : String), p ∈ (stage_uploads fs uploaded_files).2 →
      (analyze_images fs uploaded_files body).2 p = none
      ∧ (analyze_images fs uploaded_files body).1 =
          body (stage_uploads fs uploaded_files).1 := by
  intro fs uploaded_files body p h
  exact ⟨cleanup_temps_of_mem _ _ _ h, rfl⟩

/-- C7: the MIME type attached to an image payload depends only on the
file's extension, via the fixed table jpg/jpeg/png/gif/bmp/webp, and every
extension outside the table maps to image/jpeg. -/
theorem mime_type_from_extension_table :
    ∀ file_path : String,
      (str_lower (splitext file_path).2 = ".jpg" ∨ str_lower (splitext file_path).2 = ".jpeg" →
        get_mime_type file_path = "image/jpeg")
      ∧ (str_lower (splitext file_path).2 = ".png" → get_mime_type file_path = "image/png")
      ∧ (str_lower (splitext file_path).2 = ".gif" → get_mime_type file_path = "image/gif")
      ∧ (str_lower (splitext file_path).2 = ".bmp" → get_mime_type file_path = "image/bmp")
      ∧ (str_lower (splitext file_path).2 = ".webp" → get_mime_type file_path = "image/webp")
      ∧ (str_lower (splitext file_path).2 ∉
            ([".jpg", ".jpeg", ".png", ".gif", ".bmp", ".webp"] : List String) →
          get_mime_type file_path = "image/jpeg")
      ∧ (∀ q : String, (splitext q).2 = (splitext file_path).2 →
          get_mime_type q = get_mime_type file_path) := by
  intro file_path
  refine ⟨?_, ?_, ?_, ?_, ?_, ?_, ?_⟩
  · rintro (h | h) <;> (simp only [get_mime_type]; rw [h]; decide)
  · intro h; simp only [get_mime_type]; rw [h]; decide
  · intro h; simp only [get_mime_type]; rw [h]; decide
  · intro h; simp only [get_mime_type]; rw [h]; decide
  · intro h; simp only [get_mime_type]; rw [h]; decide
  · intro h
    simp only [get_mime_type]
    rw [mime_lookup_default _ h]
    rfl
  · intro q h
    simp only [get_mime_type]
    rw [h]

/-- C8: every reachable adapter state keeps the fixed model table and an
active model from the supported set, and the three generation operations are
stateless: stepping with them returns the state unchanged, so only
`set_model` transitions the adapter. -/
theorem reachable_state_invariant :
    (∀ s : GeminiVertexAI, Reachable s →
        s.models = available_models
        ∧ (s.model = "gemini-2.0-flash-exp" ∨ s.model = "gemini-2.0-flash-thinking-exp"))
    ∧ (∀ (s : GeminiVertexAI) (remote : Remote) (prompt : String) (kwargs : Kwargs),
        step s (.generate_text_op remote prompt kwargs) =
          .ok (generate_text s remote prompt kwargs, s))
    ∧ (∀ (s : GeminiVertexAI) (fs : FS) (remote : Remote) (prompt : String)
        (image_paths : List String) (kwargs : Kwargs),
        step s (.generate_with_images_op fs remote prompt image_paths kwargs) =
          .ok (generate_with_images s fs remote prompt image_paths kwargs, s))
    ∧ (∀ (s : GeminiVertexAI) (remote : ChatRemote) (messages : List Message)
        (kwargs : Kwargs),
        step s (.chat_conversation_op remote messages kwargs) =
          .ok (chat_conversation s remote messages kwargs, s)) := by
  refine ⟨?_, fun _ _ _ _ => rfl, fun _ _ _ _ _ _ => rfl, fun _ _ _ _ => rfl⟩
  intro s hs
  induction hs with
  | start project_id location => exact ⟨rfl, Or.inl rfl⟩
  | next hs hstep ih =>
    rename_i s op r s'
    cases op with
    | set_model_op model_name =>
      cases h : s.models.lookup model_name with
      | none => simp [step, set_model, h, Except.map] at hstep
      | some handle =>
        simp [step, set_model, h, Except.map] at hstep
        rw [← hstep.2]
        exact ⟨ih.1, lookup_available_models model_name handle (ih.1 ▸ h)⟩
    | generate_text_op remote prompt kwargs =>
      simp [step] at hstep
      rw [← hstep.2]
      exact ih
    | generate_with_images_op fs remote prompt image_paths kwargs =>
      simp [step] at hstep
      rw [← hstep.2]
      exact ih
    | chat_conversation_op remote messages kwargs =>
      simp [step] at hstep
      rw [← hstep.2]
      exact ih

/-! ### Witnesses -/

/-- Witness for C1 at concrete failing oracles. -/
theorem error_wrapping_never_propagates_witness :
    generate_text (GeminiVertexAI.mkClient "p" "us-central1") (fun _ => .error "boom") "hi"
        ⟨none, none, none, none⟩ = "Error generating text: " ++ "boom"
    ∧ generate_with_images (GeminiVertexAI.mkClient "p" "us-central1") (fun _ => none)
        (fun _ => .error "boom") "hi" [] ⟨none, none, none, none⟩ =
        "Error generating text with images: " ++ "boom"
    ∧ chat_conversation (GeminiVertexAI.mkClient "p" "us-central1") (fun _ _ _ => .error "boom")
        ([] ++ [⟨"user", "hi"⟩]) ⟨none, none, none, none⟩ =
        "Error in chat conversation: " ++ "boom" :=
  ⟨error_wrapping_never_propagates.1 _ _ _ _ "boom" rfl,
   error_wrapping_never_propagates.2.1 _ _ _ _ _ _ "boom" rfl,
   error_wrapping_never_propagates.2.2 _ _ [] ⟨"user", "hi"⟩ _ "boom" rfl⟩

/-- Witness for C2: a supported and an unsupported identifier. -/
theorem set_model_supported_and_rejects_witness :
    ((GeminiVertexAI.mkClient "p" "l").models.lookup "gemini-2.0-flash-thinking-exp" =
        some "gemini-2.0-flash-thinking-exp")
    ∧ set_model (GeminiVertexAI.mkClient "p" "l") "gemini-2.0-flash-thinking-exp" =
        .ok { GeminiVertexAI.mkClient "p" "l" with model := "gemini-2.0-flash-thinking-exp" }
    ∧ ((GeminiVertexAI.mkClient "p" "l").models.lookup "not-a-real-model" = none)
    ∧ (∃ msg, set_model (GeminiVertexAI.mkClient "p" "l") "not-a-real-model" = .error msg
        ∧ step (GeminiVertexAI.mkClient "p" "l") (.set_model_op "not-a-real-model") =
            .error msg) :=
  ⟨by decide,
   (set_model_supported_and_rejects.1 _ _ _ (by decide)).1,
   by decide,
   set_model_supported_and_rejects.2.1 _ _ (by decide)⟩

/-- Witness for C4 at a length-1 user history against an echoing oracle. -/
theorem chat_conversation_history_split_witness :
    (Message.mk "user" "hello").role = "user"
    ∧ chat_conversation (GeminiVertexAI.mkClient "p" "l")
        (fun _ _ t => .ok ("reply to " ++ t)) ([] ++ [⟨"user", "hello"⟩])
        ⟨none, none, none, none⟩ = "reply to " ++ "hello" :=
  ⟨rfl,
   (chat_conversation_history_split (GeminiVertexAI.mkClient "p" "l")
      (fun _ _ t => .ok ("reply to " ++ t)) [] ⟨"user", "hello"⟩
      ⟨none, none, none, none⟩ rfl).1⟩

/-- Witness for C6: one staged upload, a raising body. -/
theorem temp_files_removed_after_analysis_witness :
    ("temp_cat.png" ∈ (stage_uploads (fun _ => none) [⟨"cat.png", [7]⟩]).2)
    ∧ (analyze_images (fun _ => none) [⟨"cat.png", [7]⟩]
        (fun _ => .error "boom")).2 "temp_cat.png" = none :=
  ⟨by decide,
   (temp_files_removed_after_analysis (fun _ => none) [⟨"cat.png", [7]⟩]
      (fun _ => .error "boom") "temp_cat.png" (by decide)).1⟩

/-- Witness for C7 at a concrete upper-case path. -/
theorem mime_type_from_extension_table_witness :
    (str_lower (splitext "shot.PNG").2 = ".png")
    ∧ get_mime_type "shot.PNG" = "image/png" :=
  ⟨by decide, (mime_type_from_extension_table "shot.PNG").2.1 (by decide)⟩

/-- Witness for C8 at the initial state. -/
theorem reachable_state_invariant_witness :
    ((GeminiVertexAI.mkClient "proj" "us-central1").models = available_models
      ∧ ((GeminiVertexAI.mkClient "proj" "us-central1").model = "gemini-2.0-flash-exp"
          ∨ (GeminiVertexAI.mkClient "proj" "us-central1").model =
              "gemini-2.0-flash-thinking-exp"))
    ∧ step (GeminiVertexAI.mkClient "proj" "us-central1")
        (.generate_text_op (fun _ => .ok "fine") "hi" ⟨none, none, none, none⟩) =
        .ok (generate_text (GeminiVertexAI.mkClient "proj" "us-central1")
              (fun _ => .ok "fine") "hi" ⟨none, none, none, none⟩,
             GeminiVertexAI.mkClient "proj" "us-central1") :=
  ⟨reachable_state_invariant.1 _ (Reachable.start "proj" "us-central1"),
   reachable_state_invariant.2.1 _ _ _ _⟩

end GeminiApp
